import Mathlib

/-!
Verification development for the Musical-gram payment/referral server.

The repository contains two server variants:
* the Daraja variant (`sever.js`): M-PESA STK push initiation (`POST /api/pay`),
  asynchronous callback reconciliation (`POST /api/callback`), transaction and
  referral queries, all over two JSON files (a transaction list and a referral
  object keyed by referral id);
* the PayHero variant (`unnamed/part_000`): STK push initiation that credits the
  referral at initiation time, a callback endpoint that only logs, and a
  referral query with a zeroed default.

JavaScript strings are modelled as Lean `String`s viewed through their
character-list `data`; JS string methods used by the code are embedded as
character-list operations below.  JS object maps keyed by strings are modelled
as association lists.  Each HTTP handler becomes a pure function from the
persisted state (and the request plus a gateway-response oracle) to an HTTP
status, an effect trace where the claim needs ordering, and the new state.
-/

namespace MusicalGram

/-- JS `s.startsWith(p)`: `p`'s character sequence is a prefix of `s`'s. -/
def jsStartsWith (s p : String) : Bool :=
  p.data.isPrefixOf s.data

/-- JS `s.slice(1)` / `s.substring(1)`: drop the first character. -/
def jsTail (s : String) : String :=
  String.mk (s.data.drop 1)

/-- JS `s.trim()`: strip whitespace from both ends. -/
def jsTrim (s : String) : String :=
  String.mk (((s.data.dropWhile Char.isWhitespace).reverse.dropWhile
      Char.isWhitespace).reverse)

/-- JS `s.toUpperCase()` on the ASCII identifiers the code uses. -/
def jsToUpper (s : String) : String :=
  String.mk (s.data.map Char.toUpper)

/-- JS truthiness of an optional string field (`x || null`, `if (!x)`):
`undefined`/`null` and the empty string are falsy. -/
def strTruthy : Option String → Option String
  | some s => if s = "" then none else some s
  | none => none

/-- JS truthiness of an optional numeric field: `undefined` and `0` are falsy. -/
def intTruthy : Option Int → Option Int
  | some n => if n = 0 then none else some n
  | none => none

/-- Lookup in a JS object modelled as an association list (first binding wins). -/
def lookupKey {α : Type} : List (String × α) → String → Option α
  | [], _ => none
  | (k, v) :: rest, code => if k = code then some v else lookupKey rest code

/-- JS property assignment `obj[code] = a` on an association list. -/
def setKey {α : Type} : List (String × α) → String → α → List (String × α)
  | [], code, a => [(code, a)]
  | (k, v) :: rest, code, a =>
      if k = code then (code, a) :: rest else (k, v) :: setKey rest code a

/-- Outcome of the outbound `axios.post` to the gateway: the request either
throws (network/API failure) or yields an acknowledgment carrying
`ResponseCode`, `CheckoutRequestID` and `MerchantRequestID`. -/
inductive GatewayResult where
  | failure
  | ack (responseCode checkoutRequestID merchantRequestID : String)
deriving DecidableEq

/-- Observable side effects of an initiation, in program order. -/
inductive Eff where
  | gatewayCall (phone : String) (amount : Int) (reference : String)
  | persistTransactions
  | persistReferrals
deriving DecidableEq

/-- A persisted JSON file as the read helpers see it: absent, unparseable,
or holding a parsed value. -/
inductive RawFile (α : Type) where
  | missing
  | invalid
  | parsed (v : α)

end MusicalGram

namespace MusicalGram.Daraja

open MusicalGram

/-- A transaction record as written by `sever.js`.  Fields absent until the
callback arrives are `Option`s. -/
structure Tx where
  id : String
  phone : String
  service : String
  plan : String
  amount : Int
  reference : String
  checkoutRequestID : String
  merchantRequestID : String
  status : String
  referralId : Option String
  email : Option String
  timestamp : String
  mpesaReceiptNumber : Option String := none
  phoneNumber : Option String := none
  transactionDate : Option String := none
  errorMessage : Option String := none
  referralEarnings : Option Int := none
deriving DecidableEq

/-- One entry of a referral account's `transactions` history. -/
structure RefEntry where
  transactionId : String
  amount : Int
  timestamp : String
deriving DecidableEq

/-- A referral account as stored in `referrals.json`. -/
structure RefAccount where
  earnings : Int
  totalEarnings : Int
  transactions : List RefEntry
  createdAt : Option String := none
deriving DecidableEq

/-- The account shape created lazily by the callback handler. -/
def emptyRef : RefAccount :=
  { earnings := 0, totalEarnings := 0, transactions := [] }

/-- The two persisted stores of the Daraja variant. -/
structure DState where
  transactions : List Tx
  referrals : List (String × RefAccount)
deriving DecidableEq

/-- Helper `readTransactions` (`sever.js` lines 59-65): parse the file, return `[]`
when reading or parsing throws. -/
def readTransactions : RawFile (List Tx) → List Tx
  | .parsed v => v
  | _ => []

/-- Helper `readReferrals` (`sever.js` lines 71-77): parse the file, return `{}`
when reading or parsing throws. -/
def readReferrals : RawFile (List (String × RefAccount)) → List (String × RefAccount)
  | .parsed v => v
  | _ => []

/-- Phone formatting in `/api/pay` (`sever.js` lines 198-200). -/
def formatPhone (phone : String) : String :=
  if jsStartsWith phone "254" then phone
  else if jsStartsWith phone "0" then "254" ++ jsTail phone
  else if jsStartsWith phone "+254" then jsTail phone
  else "254" ++ phone

/-- Request body of `POST /api/pay`. -/
structure PayReq where
  phone : Option String
  service : Option String
  plan : Option String
  amount : Option Int
  referralId : Option String := none
  email : Option String := none

/-- Result of an initiation: HTTP status, trace of effects in program order,
and the state after the handler. -/
structure PayResult where
  status : Nat
  trace : List Eff
  state : DState

/-- Handler of `POST /api/pay` (`sever.js` lines 189-248).  `txId` is the fresh `uuidv4()`
and `now` the timestamp.  The gateway call happens first; the transaction is
pushed to the store only after an acknowledgment with `ResponseCode === '0'`. -/
def pay (st : DState) (req : PayReq) (gw : GatewayResult) (txId now : String) :
    PayResult :=
  match strTruthy req.phone, strTruthy req.service, strTruthy req.plan,
      intTruthy req.amount with
  | some phone, some service, some plan, some amount =>
    let fp := formatPhone phone
    let reference := "BERA-" ++ jsToUpper service ++ "-" ++ jsToUpper plan
    match gw with
    | .failure =>
        { status := 500, trace := [.gatewayCall fp amount reference], state := st }
    | .ack code checkoutId merchantId =>
        if code = "0" then
          let t : Tx :=
            { id := txId, phone := fp, service := service, plan := plan,
              amount := amount, reference := reference,
              checkoutRequestID := checkoutId, merchantRequestID := merchantId,
              status := "pending", referralId := strTruthy req.referralId,
              email := strTruthy req.email, timestamp := now }
          { status := 200,
            trace := [.gatewayCall fp amount reference, .persistTransactions],
            state := { st with transactions := st.transactions ++ [t] } }
        else
          { status := 400, trace := [.gatewayCall fp amount reference], state := st }
  | _, _, _, _ => { status := 400, trace := [], state := st }

/-- One `{Name, Value}` item of the callback metadata. -/
structure MetaItem where
  name : String
  value : String
deriving DecidableEq

/-- Lookup `CallbackMetadata.Item.find(i => i.Name === n)?.Value`. -/
def findMeta : List MetaItem → String → Option String
  | [], _ => none
  | it :: rest, n => if it.name = n then some it.value else findMeta rest n

/-- The `Body.stkCallback` object of a gateway callback. -/
structure StkCallback where
  checkoutRequestID : String
  resultCode : Int
  resultDesc : String
  callbackMetadata : Option (List MetaItem)
deriving DecidableEq

/-- An inbound callback body: either it lacks the `Body.stkCallback` shape
(accessing it throws, the catch branch answers 200) or it is well formed. -/
inductive CallbackPayload where
  | malformed
  | wellFormed (cb : StkCallback)
deriving DecidableEq

/-- Search `transactions.findIndex(t => t.checkoutRequestID === key)`, returning the
first matching record. -/
def findTx : List Tx → String → Option Tx
  | [], _ => none
  | t :: ts, key => if t.checkoutRequestID = key then some t else findTx ts key

/-- Write back the mutated record at the first index whose
`checkoutRequestID` matches. -/
def updateTx : List Tx → String → Tx → List Tx
  | [], _, _ => []
  | t :: ts, key, t' =>
      if t.checkoutRequestID = key then t' :: ts else t :: updateTx ts key t'

/-- Referral crediting inside the success branch (`sever.js` lines 273-293):
lazily create the account, add the flat 10 KSh to `earnings` and
`totalEarnings`, append a history entry. -/
def creditReferral (refs : List (String × RefAccount)) (code txId now : String) :
    List (String × RefAccount) :=
  let acc := (lookupKey refs code).getD emptyRef
  setKey refs code
    { acc with
        earnings := acc.earnings + 10,
        totalEarnings := acc.totalEarnings + 10,
        transactions := acc.transactions ++ [⟨txId, 10, now⟩] }

/-- Handler of `POST /api/callback` (`sever.js` lines 251-317): returns the HTTP status
and the new state.  A malformed body throws before any write and the catch
branch answers 200; a success callback without metadata throws at the
metadata access, again before any write.  There is no terminal-status check:
a matched transaction is rewritten and the referral credited on every
success delivery. -/
def handleCallback (st : DState) (p : CallbackPayload) (now : String) :
    Nat × DState :=
  match p with
  | .malformed => (200, st)
  | .wellFormed cb =>
    match findTx st.transactions cb.checkoutRequestID with
    | none => (200, st)
    | some t =>
      if cb.resultCode = 0 then
        match cb.callbackMetadata with
        | none => (200, st)
        | some items =>
          let t1 : Tx :=
            { t with
                status := "success",
                mpesaReceiptNumber := findMeta items "MpesaReceiptNumber",
                phoneNumber := findMeta items "PhoneNumber",
                transactionDate := findMeta items "TransactionDate" }
          match strTruthy t.referralId with
          | some code =>
            let refs := creditReferral st.referrals code t.id now
            let t2 : Tx := { t1 with referralEarnings := some 10 }
            (200, { transactions := updateTx st.transactions cb.checkoutRequestID t2,
                    referrals := refs })
          | none =>
            (200, { st with
                      transactions := updateTx st.transactions cb.checkoutRequestID t1 })
      else
        (200, { st with
                  transactions := updateTx st.transactions cb.checkoutRequestID
                    { t with status := "failed", errorMessage := some cb.resultDesc } })

/-- Search `transactions.find(t => t.id === id)`: first record with this id. -/
def findById : List Tx → String → Option Tx
  | [], _ => none
  | t :: ts, id => if t.id = id then some t else findById ts id

/-- Handler of `GET /api/transaction/:id` (`sever.js` lines 320-334). -/
def getTransaction (st : DState) (id : String) : Nat × Option Tx :=
  match findById st.transactions id with
  | none => (404, none)
  | some t => (200, some t)

/-- Handler of `GET /api/referral/:id` (`sever.js` lines 360-374). -/
def getReferral (st : DState) (code : String) : Nat × Option RefAccount :=
  match lookupKey st.referrals code with
  | none => (404, none)
  | some a => (200, some a)

/-- Handler of `POST /api/referral/generate` (`sever.js` lines 337-358), with the chosen
referral id passed in. -/
def generateReferral (st : DState) (refId now : String) : DState :=
  match lookupKey st.referrals refId with
  | some _ => st
  | none =>
      let fresh : RefAccount := { emptyRef with createdAt := some now }
      { st with referrals := setKey st.referrals refId fresh }

/-- The state-mutating operations of the Daraja variant. -/
inductive Op where
  | payOp (req : PayReq) (gw : GatewayResult) (txId now : String)
  | callbackOp (p : CallbackPayload) (now : String)
  | generateOp (refId now : String)

/-- Apply one operation to the persisted state. -/
def step (st : DState) : Op → DState
  | .payOp req gw txId now => (pay st req gw txId now).state
  | .callbackOp p now => (handleCallback st p now).2
  | .generateOp refId now => generateReferral st refId now

/-- The freshly initialised stores (`sever.js` lines 31-36): an empty
transaction list and an empty referral object. -/
def initState : DState := { transactions := [], referrals := [] }

/-- A state is reachable when some sequence of operations produces it from
the initialised stores. -/
def run (ops : List Op) : DState := ops.foldl step initState

end MusicalGram.Daraja

namespace MusicalGram.PayHero

open MusicalGram

/-- A referral record of the PayHero variant: `{ earnings, payments }`. -/
structure Account where
  earnings : Int
  payments : Int
deriving DecidableEq

/-- The single persisted store (`referrals.json`). -/
structure PHState where
  referrals : List (String × Account)
deriving DecidableEq

/-- Helper `readReferrals` (`part_000` lines 19-28): `{}` when the file is missing
or reading/parsing throws. -/
def readReferrals : RawFile (List (String × Account)) → List (String × Account)
  | .parsed v => v
  | _ => []

/-- Phone formatting in `/api/pay` (`part_000` lines 52-57), applied to the
trimmed phone string. -/
def formatPhone (p : String) : String :=
  if jsStartsWith p "0" then "254" ++ jsTail p
  else if jsStartsWith p "+254" then jsTail p
  else p

/-- Request body of the PayHero `POST /api/pay`. -/
structure Req where
  phone : Option String
  amount : Option Int
  service : Option String
  referralCode : Option String := none

/-- Referral tracking at initiation (`part_000` lines 100-108): lazily create
the record, bump `payments` and add the flat 10 KES. -/
def credit (refs : List (String × Account)) (code : String) :
    List (String × Account) :=
  let a := (lookupKey refs code).getD ⟨0, 0⟩
  setKey refs code ⟨a.earnings + 10, a.payments + 1⟩

/-- PayHero `POST /api/pay` (`part_000` lines 38-151): HTTP status, effect
trace in program order, new state.  `dev` is `NODE_ENV === 'development'`
(the simulation fallback in the catch branch). -/
def pay (st : PHState) (req : Req) (gw : GatewayResult) (dev : Bool) :
    Nat × List Eff × PHState :=
  match strTruthy req.phone, intTruthy req.amount, strTruthy req.service with
  | some phone, some amount, some service =>
    let fp := formatPhone (jsTrim phone)
    let reference := "CHEGE-" ++ jsToUpper service
    if amount < 100 then (400, [], st)
    else
      match gw with
      | .failure =>
          if dev then (200, [.gatewayCall fp amount reference], st)
          else (500, [.gatewayCall fp amount reference], st)
      | .ack code _ _ =>
          if code = "0" then
            match strTruthy req.referralCode with
            | some rc =>
                (200, [.gatewayCall fp amount reference, .persistReferrals],
                 { referrals := credit st.referrals rc })
            | none => (200, [.gatewayCall fp amount reference], st)
          else (400, [.gatewayCall fp amount reference], st)
  | _, _, _ => (400, [], st)

/-- PayHero `POST /api/callback` (`part_000` lines 153-156): log the body and
answer `200 OK`; the stores are untouched. -/
def handleCallback (st : PHState) (_body : String) : Nat × String × PHState :=
  (200, "OK", st)

/-- PayHero `GET /api/referral/:code` (`part_000` lines 159-163): always 200,
with a zeroed default for an unknown code. -/
def getReferral (st : PHState) (code : String) : Nat × Account :=
  (200, (lookupKey st.referrals code).getD ⟨0, 0⟩)

end MusicalGram.PayHero

namespace MusicalGram.Daraja

open MusicalGram

/-- Concrete initiation request of the spec scenario: phone `0712345678`,
service/plan, amount 100, referral code `ABC`. -/
def reqA : PayReq :=
  { phone := some "0712345678", service := some "netflix", plan := some "basic",
    amount := some 100, referralId := some "ABC" }

/-- Gateway acknowledgment accepting the push with checkout id `CRQ1`. -/
def ackA : GatewayResult := .ack "0" "CRQ1" "MRQ1"

/-- The `Body.stkCallback` of the success callback for `CRQ1`. -/
def cbBodyA : StkCallback :=
  { checkoutRequestID := "CRQ1", resultCode := 0, resultDesc := "Success",
    callbackMetadata := some
      [⟨"MpesaReceiptNumber", "R123"⟩, ⟨"PhoneNumber", "254712345678"⟩,
       ⟨"TransactionDate", "20251011"⟩] }

/-- The delivered success callback for `CRQ1`. -/
def cbA : CallbackPayload := .wellFormed cbBodyA

/-- The transaction record `pay` persists for `reqA` under `ackA`. -/
def txA : Tx :=
  { id := "TX1", phone := "254712345678", service := "netflix", plan := "basic",
    amount := 100, reference := "BERA-NETFLIX-BASIC", checkoutRequestID := "CRQ1",
    merchantRequestID := "MRQ1", status := "pending", referralId := some "ABC",
    email := none, timestamp := "t0" }

/-- State after the initiation of `reqA`. -/
def state1 : DState := (pay initState reqA ackA "TX1" "t0").state

/-- State after the first delivery of the success callback. -/
def state2 : DState := (handleCallback state1 cbA "t1").2

/-- State after the second, identical delivery of the same callback. -/
def state3 : DState := (handleCallback state2 cbA "t2").2

/-- Initiation of `reqA` when the gateway rejects the push
(`ResponseCode` not `'0'`). -/
def payReject : PayResult := pay initState reqA (.ack "1" "CRQ2" "MRQ2") "TX2" "t0"

/-- Initiation with amount 50, below the spec's minimum of 100. -/
def req50 : PayReq := { reqA with amount := some 50, referralId := none }

/-- Result of the amount-50 initiation in the Daraja variant. -/
def pay50 : PayResult := pay initState req50 (.ack "0" "CRQ3" "MRQ3") "TX3" "t0"

/-- The referral account reached by one initiation plus one success callback. -/
def accAfterOne : RefAccount :=
  { earnings := 10, totalEarnings := 10, transactions := [⟨"TX1", 10, "t1"⟩] }

/-- The per-account part of the accounting invariant: earnings are ten times
the number of history entries. -/
def RefInv (st : DState) : Prop :=
  ∀ q ∈ st.referrals, q.2.earnings = 10 * (q.2.transactions.length : Int)

end MusicalGram.Daraja

namespace MusicalGram.PayHero

open MusicalGram

/-- Concrete PayHero initiation request citing referral code `XYZ`. -/
def phReq : Req :=
  { phone := some "0712345678", amount := some 100, service := some "NETFLIX",
    referralCode := some "XYZ" }

/-- Result of the PayHero initiation of `phReq` on an accepting gateway. -/
def phRun : Nat × List Eff × PHState :=
  pay ⟨[]⟩ phReq (.ack "0" "CRQ9" "MRQ9") false

/-- PayHero initiation with amount 50, below the minimum of 100. -/
def phReq50 : Req :=
  { phone := some "0712345678", amount := some 50, service := some "NETFLIX" }

end MusicalGram.PayHero

namespace MusicalGram

/-- A key found by `lookupKey` is bound in the list. -/
theorem lookupKey_mem {α : Type} {refs : List (String × α)} {code : String}
    {a : α} (h : lookupKey refs code = some a) : (code, a) ∈ refs := by
  induction refs with
  | nil => simp [lookupKey] at h
  | cons p rest ih =>
    obtain ⟨k, v⟩ := p
    simp only [lookupKey] at h
    split at h
    · rename_i hk
      cases h
      exact hk ▸ List.mem_cons_self _ _
    · exact List.mem_cons_of_mem _ (ih h)

/-- Every binding of `setKey refs code a` is the new binding or an old one. -/
theorem mem_setKey {α : Type} {refs : List (String × α)} {code : String}
    {a : α} {q : String × α} (h : q ∈ setKey refs code a) :
    q = (code, a) ∨ q ∈ refs := by
  induction refs with
  | nil =>
    simp [setKey] at h
    exact Or.inl h
  | cons p rest ih =>
    obtain ⟨k, v⟩ := p
    simp only [setKey] at h
    split at h
    · rcases List.mem_cons.mp h with h1 | h1
      · exact Or.inl h1
      · exact Or.inr (List.mem_cons_of_mem _ h1)
    · rcases List.mem_cons.mp h with h1 | h1
      · exact Or.inr (h1 ▸ List.mem_cons_self _ _)
      · rcases ih h1 with h2 | h2
        · exact Or.inl h2
        · exact Or.inr (List.mem_cons_of_mem _ h2)

/-- Looking up the key just written returns the written value. -/
theorem lookupKey_setKey_self {α : Type} (refs : List (String × α))
    (code : String) (a : α) : lookupKey (setKey refs code a) code = some a := by
  induction refs with
  | nil => simp [setKey, lookupKey]
  | cons p rest ih =>
    obtain ⟨k, v⟩ := p
    simp only [setKey]
    split
    · simp [lookupKey]
    · rename_i hk
      simp only [lookupKey]
      split
      · exact absurd (by assumption) hk
      · exact ih

/-- A string starting with `0` does not start with `254`. -/
theorem startsWith_zero_not_254 {s : String} (h : jsStartsWith s "0" = true) :
    jsStartsWith s "254" = false := by
  obtain ⟨d⟩ := s
  simp only [jsStartsWith] at h ⊢
  cases d with
  | nil => simp [List.isPrefixOf] at h
  | cons c cs =>
    simp [List.isPrefixOf] at h ⊢
    exact fun hc => absurd (h.trans hc.symm) (by decide)

/-- A string starting with `+254` starts with neither `254` nor `0`. -/
theorem startsWith_plus_not_254_not_zero {s : String}
    (h : jsStartsWith s "+254" = true) :
    jsStartsWith s "254" = false ∧ jsStartsWith s "0" = false := by
  obtain ⟨d⟩ := s
  simp only [jsStartsWith] at h ⊢
  cases d with
  | nil => simp [List.isPrefixOf] at h
  | cons c cs =>
    simp [List.isPrefixOf] at h ⊢
    exact ⟨fun hc => absurd (h.1.trans hc.symm) (by decide),
           fun hc => absurd (h.1.trans hc.symm) (by decide)⟩

end MusicalGram

namespace MusicalGram

open MusicalGram.Daraja MusicalGram.PayHero

/-- Claim C6: in both initiators, a phone with a leading `0` is normalized to
the `254...` country-code form, and a leading `+` on an already country-coded
`+254...` phone is stripped. -/
theorem claim_C6_phone_normalization (phone : String) :
    (jsStartsWith phone "0" = true →
      Daraja.formatPhone phone = "254" ++ jsTail phone ∧
      PayHero.formatPhone phone = "254" ++ jsTail phone) ∧
    (jsStartsWith phone "+254" = true →
      Daraja.formatPhone phone = jsTail phone ∧
      PayHero.formatPhone phone = jsTail phone) := by
  constructor
  · intro h0
    have h254 := startsWith_zero_not_254 h0
    constructor
    · simp [Daraja.formatPhone, h254, h0]
    · simp [PayHero.formatPhone, h0]
  · intro hp
    obtain ⟨h254, h0⟩ := startsWith_plus_not_254_not_zero hp
    constructor
    · simp [Daraja.formatPhone, h254, h0, hp]
    · simp [PayHero.formatPhone, h0, hp]

/-- Witness for C6: the spec's scenario phone `0712345678` normalizes to
`254712345678`, and `+254712345678` to `254712345678`, in both variants. -/
theorem claim_C6_phone_normalization_witness :
    (jsStartsWith "0712345678" "0" = true ∧
      Daraja.formatPhone "0712345678" = "254712345678" ∧
      PayHero.formatPhone "0712345678" = "254712345678") ∧
    (jsStartsWith "+254712345678" "+254" = true ∧
      Daraja.formatPhone "+254712345678" = "254712345678" ∧
      PayHero.formatPhone "+254712345678" = "254712345678") := by
  have h1 := (claim_C6_phone_normalization "0712345678").1 (by decide)
  have h2 := (claim_C6_phone_normalization "+254712345678").2 (by decide)
  refine ⟨⟨by decide, ?_, ?_⟩, ⟨by decide, ?_, ?_⟩⟩
  · rw [h1.1]; decide
  · rw [h1.2]; decide
  · rw [h2.1]; decide
  · rw [h2.2]; decide

/-- Claim C9: the PayHero callback handler mutates nothing: it answers
`200 OK` and returns the stores unchanged for every payload. -/
theorem claim_C9_payhero_callback_no_mutation (st : PayHero.PHState)
    (body : String) : PayHero.handleCallback st body = (200, "OK", st) := rfl

end MusicalGram

namespace MusicalGram

open MusicalGram.Daraja MusicalGram.PayHero

/-- Claim C7: both inbound callback endpoints answer HTTP 200 for every
delivered payload — malformed bodies (the catch branch), payloads matching no
transaction, and payloads matching a transaction in any status alike. -/
theorem claim_C7_callback_always_200 (st : Daraja.DState)
    (p : Daraja.CallbackPayload) (now : String) (phst : PayHero.PHState)
    (body : String) :
    (Daraja.handleCallback st p now).1 = 200 ∧
    (PayHero.handleCallback phst body).1 = 200 := by
  refine ⟨?_, rfl⟩
  cases p with
  | malformed => rfl
  | wellFormed cb =>
    simp only [Daraja.handleCallback]
    cases Daraja.findTx st.transactions cb.checkoutRequestID with
    | none => rfl
    | some t =>
      by_cases hrc : cb.resultCode = 0
      · simp only [hrc, if_true, reduceIte]
        cases cb.callbackMetadata with
        | none => rfl
        | some items =>
          cases strTruthy t.referralId with
          | none => rfl
          | some code => rfl
      · simp only [hrc, reduceIte]

/-- Claim C10: the storage read helpers are total: a missing or unparseable
file reads as the empty transaction list / empty referral object, and the
query endpoints on such a store behave exactly as on an empty store. -/
theorem claim_C10_read_helpers_total (id code code2 : String) :
    Daraja.readTransactions .missing = [] ∧
    Daraja.readTransactions .invalid = [] ∧
    Daraja.readReferrals .missing = [] ∧
    Daraja.readReferrals .invalid = [] ∧
    PayHero.readReferrals .missing = [] ∧
    PayHero.readReferrals .invalid = [] ∧
    Daraja.getTransaction
        ⟨Daraja.readTransactions .invalid, Daraja.readReferrals .invalid⟩ id
      = Daraja.getTransaction Daraja.initState id ∧
    Daraja.getReferral
        ⟨Daraja.readTransactions .missing, Daraja.readReferrals .missing⟩ code
      = Daraja.getReferral Daraja.initState code ∧
    PayHero.getReferral ⟨PayHero.readReferrals .invalid⟩ code2
      = PayHero.getReferral ⟨[]⟩ code2 :=
  ⟨rfl, rfl, rfl, rfl, rfl, rfl, rfl, rfl, rfl⟩

end MusicalGram

namespace MusicalGram

open MusicalGram.Daraja MusicalGram.PayHero

/-- The Daraja initiation never touches the referral store. -/
theorem pay_referrals_unchanged (st : Daraja.DState) (req : Daraja.PayReq)
    (gw : GatewayResult) (txId now : String) :
    (Daraja.pay st req gw txId now).state.referrals = st.referrals := by
  unfold Daraja.pay
  repeat' split
  all_goals rfl

/-- The Daraja callback handler either leaves the referral store unchanged or
replaces it by a single `creditReferral` application. -/
theorem handleCallback_referrals (st : Daraja.DState)
    (p : Daraja.CallbackPayload) (now : String) :
    ((Daraja.handleCallback st p now).2).referrals = st.referrals ∨
    ∃ code txId, ((Daraja.handleCallback st p now).2).referrals
      = Daraja.creditReferral st.referrals code txId now := by
  cases p with
  | malformed => exact Or.inl rfl
  | wellFormed cb =>
    unfold Daraja.handleCallback
    repeat' split
    all_goals first
      | exact Or.inl rfl
      | exact Or.inr ⟨_, _, rfl⟩

/-- Looking up the credited code after `creditReferral` yields the old account
(or the lazily created empty one) with 10 more earnings and one more history
entry. -/
theorem lookupKey_creditReferral_self (refs : List (String × Daraja.RefAccount))
    (code txId now : String) :
    lookupKey (Daraja.creditReferral refs code txId now) code =
      some { earnings := ((lookupKey refs code).getD Daraja.emptyRef).earnings + 10,
             totalEarnings :=
               ((lookupKey refs code).getD Daraja.emptyRef).totalEarnings + 10,
             transactions :=
               ((lookupKey refs code).getD Daraja.emptyRef).transactions
                 ++ [⟨txId, 10, now⟩],
             createdAt := ((lookupKey refs code).getD Daraja.emptyRef).createdAt } := by
  simp only [Daraja.creditReferral]
  exact lookupKey_setKey_self _ _ _

/-- Looking up the credited code after the PayHero `credit` yields 10 more
earnings and one more payment. -/
theorem lookupKey_credit_self (refs : List (String × PayHero.Account))
    (code : String) :
    lookupKey (PayHero.credit refs code) code =
      some ⟨((lookupKey refs code).getD ⟨0, 0⟩).earnings + 10,
            ((lookupKey refs code).getD ⟨0, 0⟩).payments + 1⟩ := by
  simp only [PayHero.credit]
  exact lookupKey_setKey_self _ _ _

/-- Counterexample to claim C8: the PayHero referral query answers an unknown
code with HTTP 200 and a fabricated zeroed record, not 404. -/
theorem claim_C8_counterexample :
    (PayHero.getReferral ⟨[]⟩ "UNKNOWN").1 ≠ 404 ∧
    PayHero.getReferral ⟨[]⟩ "UNKNOWN" = (200, ⟨0, 0⟩) := by
  decide

/-- Claim C8 as amended: the Daraja transaction and referral queries answer an
unknown key with 404 and no record; the PayHero referral query instead answers
200 with a zeroed default record. -/
theorem claim_C8_unknown_key_queries (st : Daraja.DState) (id code ph : String)
    (phst : PayHero.PHState)
    (ht : Daraja.findById st.transactions id = none)
    (hr : lookupKey st.referrals code = none)
    (hp : lookupKey phst.referrals ph = none) :
    Daraja.getTransaction st id = (404, none) ∧
    Daraja.getReferral st code = (404, none) ∧
    PayHero.getReferral phst ph = (200, ⟨0, 0⟩) := by
  refine ⟨?_, ?_, ?_⟩
  · simp [Daraja.getTransaction, ht]
  · simp [Daraja.getReferral, hr]
  · simp [PayHero.getReferral, hp]

/-- Witness for the amended C8 at concrete unknown keys on empty stores. -/
theorem claim_C8_unknown_key_queries_witness :
    Daraja.getTransaction Daraja.initState "missing-id" = (404, none) ∧
    Daraja.getReferral Daraja.initState "missing-code" = (404, none) ∧
    PayHero.getReferral ⟨[]⟩ "missing-code" = (200, ⟨0, 0⟩) :=
  claim_C8_unknown_key_queries Daraja.initState "missing-id" "missing-code"
    "missing-code" ⟨[]⟩ rfl rfl rfl

/-- Counterexample to claim C4: on a rejected push the Daraja initiation has
already called the gateway, yet no transaction was persisted at any point —
so the record is not persisted before the outbound call. -/
theorem claim_C4_counterexample :
    Eff.gatewayCall "254712345678" 100 "BERA-NETFLIX-BASIC"
        ∈ Daraja.payReject.trace ∧
    Eff.persistTransactions ∉ Daraja.payReject.trace ∧
    Daraja.payReject.state.transactions = [] := by
  decide

/-- Claim C4 as amended: in every Daraja initiation the gateway call comes
first; the transaction is persisted only afterwards, and only when the gateway
acknowledged the push. -/
theorem claim_C4_gateway_call_precedes_persist (st : Daraja.DState)
    (req : Daraja.PayReq) (gw : GatewayResult) (txId now : String) :
    (Daraja.pay st req gw txId now).trace = [] ∨
    (∃ fp amt ref, (Daraja.pay st req gw txId now).trace
        = [.gatewayCall fp amt ref]) ∨
    (∃ fp amt ref, (Daraja.pay st req gw txId now).trace
        = [.gatewayCall fp amt ref, .persistTransactions]) := by
  unfold Daraja.pay
  repeat' split
  all_goals first
    | exact Or.inl rfl
    | exact Or.inr (Or.inl ⟨_, _, _, rfl⟩)
    | exact Or.inr (Or.inr ⟨_, _, _, rfl⟩)

/-- Counterexample to claim C5: the Daraja initiation has no minimum-amount
check: an amount-50 request is accepted (HTTP 200), the gateway is called,
and a transaction is persisted. -/
theorem claim_C5_counterexample :
    Daraja.pay50.status = 200 ∧
    Eff.gatewayCall "254712345678" 50 "BERA-NETFLIX-BASIC" ∈ Daraja.pay50.trace ∧
    Daraja.pay50.state.transactions ≠ [] := by
  decide

/-- Claim C5 as amended: only the PayHero initiation enforces the minimum:
an amount below 100 is rejected with a validation error (HTTP 400) before any
gateway call, with the stores untouched. -/
theorem claim_C5_payhero_min_amount (st : PayHero.PHState) (req : PayHero.Req)
    (gw : GatewayResult) (dev : Bool) (phone : String) (amount : Int)
    (service : String)
    (hp : strTruthy req.phone = some phone)
    (ha : intTruthy req.amount = some amount)
    (hs : strTruthy req.service = some service)
    (hlt : amount < 100) :
    PayHero.pay st req gw dev = (400, [], st) := by
  simp only [PayHero.pay, hp, ha, hs]
  rw [if_pos hlt]

/-- Witness for the amended C5: the amount-50 PayHero request is rejected
with 400, no gateway call, stores unchanged. -/
theorem claim_C5_payhero_min_amount_witness :
    PayHero.pay ⟨[]⟩ PayHero.phReq50 (.ack "0" "CRQ9" "MRQ9") false
      = (400, [], ⟨[]⟩) :=
  claim_C5_payhero_min_amount ⟨[]⟩ PayHero.phReq50 (.ack "0" "CRQ9" "MRQ9")
    false "0712345678" 50 "NETFLIX" (by decide) (by decide) (by decide)
    (by decide)

end MusicalGram

namespace MusicalGram

open MusicalGram.Daraja MusicalGram.PayHero

/-- Counterexample to claim C2: the PayHero initiation credits the referral
code at initiation time, upon the mere gateway acknowledgment of the push —
no transaction ever reached a succeeded status (the PayHero variant stores no
transactions and its callback endpoint never credits). -/
theorem claim_C2_counterexample :
    PayHero.phRun.1 = 200 ∧
    lookupKey PayHero.phRun.2.2.referrals "XYZ" = some ⟨10, 1⟩ := by
  decide

/-- Claim C2 as amended: in the Daraja variant the referral reward of 10 is
credited only by the callback handler — never at initiation, never on a
failure callback, and exactly 10 per delivered success callback matching a
transaction with a truthy referral id; in the PayHero variant the reward of 10
is credited at initiation, upon a gateway acknowledgment with code `'0'`. -/
theorem claim_C2_referral_credit_discipline :
    (∀ (st : Daraja.DState) (req : Daraja.PayReq) (gw : GatewayResult)
        (txId now : String),
        (Daraja.pay st req gw txId now).state.referrals = st.referrals) ∧
    (∀ (st : Daraja.DState) (cb : Daraja.StkCallback) (now : String),
        cb.resultCode ≠ 0 →
        ((Daraja.handleCallback st (.wellFormed cb) now).2).referrals
          = st.referrals) ∧
    (∀ (st : Daraja.DState) (cb : Daraja.StkCallback) (now : String)
        (items : List Daraja.MetaItem) (t : Daraja.Tx) (code : String),
        Daraja.findTx st.transactions cb.checkoutRequestID = some t →
        cb.resultCode = 0 →
        cb.callbackMetadata = some items →
        strTruthy t.referralId = some code →
        (lookupKey ((Daraja.handleCallback st (.wellFormed cb) now).2).referrals
            code).map Daraja.RefAccount.earnings
          = some (((lookupKey st.referrals code).getD Daraja.emptyRef).earnings
              + 10)) ∧
    (∀ (st : PayHero.PHState) (req : PayHero.Req) (cid mid : String)
        (dev : Bool) (phone : String) (amount : Int) (service rc : String),
        strTruthy req.phone = some phone →
        intTruthy req.amount = some amount →
        strTruthy req.service = some service →
        strTruthy req.referralCode = some rc →
        ¬ amount < 100 →
        (lookupKey (PayHero.pay st req (.ack "0" cid mid) dev).2.2.referrals
            rc).map PayHero.Account.earnings
          = some (((lookupKey st.referrals rc).getD ⟨0, 0⟩).earnings + 10)) := by
  refine ⟨pay_referrals_unchanged, ?_, ?_, ?_⟩
  · intro st cb now hrc
    simp only [Daraja.handleCallback]
    split
    · rfl
    · rw [if_neg hrc]
  · intro st cb now items t code hf hrc hm hcode
    simp [Daraja.handleCallback, hf, hrc, hm, hcode,
      lookupKey_creditReferral_self]
  · intro st req cid mid dev phone amount service rc hp ha hs hrcref hge
    simp [PayHero.pay, hp, ha, hs, hrcref, hge, lookupKey_credit_self]

/-- Witness for the amended C2: after the initiation of `reqA` the first
success callback credits `ABC` with exactly 10. -/
theorem claim_C2_referral_credit_discipline_witness :
    (lookupKey
        ((Daraja.handleCallback Daraja.state1
            (.wellFormed Daraja.cbBodyA) "t1").2).referrals "ABC").map
      Daraja.RefAccount.earnings = some 10 := by
  have h := claim_C2_referral_credit_discipline.2.2.1 Daraja.state1
    Daraja.cbBodyA "t1"
    [⟨"MpesaReceiptNumber", "R123"⟩, ⟨"PhoneNumber", "254712345678"⟩,
     ⟨"TransactionDate", "20251011"⟩]
    Daraja.txA "ABC" (by decide) (by decide) (by decide) (by decide)
  have e : ((lookupKey Daraja.state1.referrals "ABC").getD
      Daraja.emptyRef).earnings + 10 = (10 : Int) := by decide
  rw [e] at h
  exact h

/-- Claim C1 evaluated at its failing input: after the success callback the
transaction is terminal (`status = "success"`) and `ABC` holds 10; delivering
the identical callback again re-runs the referral credit (earnings become 20)
and rewrites the transaction — the second delivery is not a no-op. -/
theorem claim_C1_double_delivery_recredits :
    (Daraja.findTx Daraja.state2.transactions "CRQ1").map Daraja.Tx.status
        = some "success" ∧
    (lookupKey Daraja.state2.referrals "ABC").map Daraja.RefAccount.earnings
        = some 10 ∧
    (lookupKey Daraja.state3.referrals "ABC").map Daraja.RefAccount.earnings
        = some 20 ∧
    Daraja.state3 ≠ Daraja.state2 := by
  decide

end MusicalGram

namespace MusicalGram

open MusicalGram.Daraja

/-- Crediting a referral preserves the per-account earnings invariant. -/
theorem refinv_credit {refs : List (String × Daraja.RefAccount)}
    (hinv : ∀ q ∈ refs, q.2.earnings = 10 * (q.2.transactions.length : Int))
    (code txId now : String) :
    ∀ q ∈ Daraja.creditReferral refs code txId now,
      q.2.earnings = 10 * (q.2.transactions.length : Int) := by
  intro q hq
  simp only [Daraja.creditReferral] at hq
  rcases mem_setKey hq with h | h
  · subst h
    cases hl : lookupKey refs code with
    | none => simp [hl, Daraja.emptyRef]
    | some a =>
      have ha := hinv (code, a) (lookupKey_mem hl)
      simp only [hl, Option.getD_some] at *
      simp only [List.length_append, List.length_cons, List.length_nil]
      push_cast
      omega
  · exact hinv q h

/-- Every operation of the Daraja server preserves the earnings invariant. -/
theorem refinv_step (st : Daraja.DState) (op : Daraja.Op)
    (h : Daraja.RefInv st) : Daraja.RefInv (Daraja.step st op) := by
  cases op with
  | payOp req gw txId now =>
    intro q hq
    simp only [Daraja.step, pay_referrals_unchanged] at hq
    exact h q hq
  | generateOp refId now =>
    intro q hq
    simp only [Daraja.step, Daraja.generateReferral] at hq
    cases hl : lookupKey st.referrals refId with
    | some a =>
      simp only [hl] at hq
      exact h q hq
    | none =>
      simp only [hl] at hq
      rcases mem_setKey hq with h1 | h1
      · subst h1
        simp [Daraja.emptyRef]
      · exact h q h1
  | callbackOp p now =>
    intro q hq
    simp only [Daraja.step] at hq
    rcases handleCallback_referrals st p now with he | ⟨code, txId, he⟩
    · rw [he] at hq
      exact h q hq
    · rw [he] at hq
      exact refinv_credit h code txId now q hq

/-- Every reachable Daraja state satisfies the earnings invariant. -/
theorem refinv_run (ops : List Daraja.Op) : Daraja.RefInv (Daraja.run ops) := by
  have h0 : Daraja.RefInv Daraja.initState := by
    intro q hq
    simp [Daraja.initState] at hq
  suffices hgen : ∀ st, Daraja.RefInv st →
      Daraja.RefInv (ops.foldl Daraja.step st) from hgen Daraja.initState h0
  induction ops with
  | nil => intro st hst; simpa using hst
  | cons op rest ih =>
    intro st hst
    simp only [List.foldl_cons]
    exact ih _ (refinv_step st op hst)

/-- Counterexample to claim C3: after a duplicated success-callback delivery
the reachable account `ABC` holds two history entries bearing the same
transaction id `TX1` — the number of credits (2) exceeds the number of
distinct transaction ids in the history (1). -/
theorem claim_C3_counterexample :
    ((lookupKey Daraja.state3.referrals "ABC").getD
        Daraja.emptyRef).transactions.length = 2 ∧
    (((lookupKey Daraja.state3.referrals "ABC").getD
        Daraja.emptyRef).transactions.map Daraja.RefEntry.transactionId)
      = ["TX1", "TX1"] ∧
    (((lookupKey Daraja.state3.referrals "ABC").getD
        Daraja.emptyRef).transactions.map
        Daraja.RefEntry.transactionId).dedup.length = 1 := by
  decide

/-- Claim C3 as amended: in every reachable Daraja state, every referral
account's earnings equal the fixed reward of 10 times the number of entries in
its credit history (the code has no separate reward counter; the history
length is the credit count, and it may repeat a transaction id under
duplicated callback delivery). -/
theorem claim_C3_earnings_invariant (ops : List Daraja.Op) (code : String)
    (acc : Daraja.RefAccount)
    (h : lookupKey (Daraja.run ops).referrals code = some acc) :
    acc.earnings = 10 * (acc.transactions.length : Int) :=
  refinv_run ops (code, acc) (lookupKey_mem h)

/-- Witness for the amended C3: the account reached by one initiation and one
success callback has earnings 10 with one history entry. -/
theorem claim_C3_earnings_invariant_witness :
    Daraja.accAfterOne.earnings
      = 10 * (Daraja.accAfterOne.transactions.length : Int) :=
  claim_C3_earnings_invariant
    [.payOp Daraja.reqA Daraja.ackA "TX1" "t0", .callbackOp Daraja.cbA "t1"]
    "ABC" Daraja.accAfterOne (by decide)

end MusicalGram
